import Mathlib

/-!
Verification of the LangGraph_ChatBot repository's conversational-graph
pipeline against its specification.

The repository contains three graph variants built from the same node
vocabulary:
* `src/langGraph.js`   — embedded below in namespace `LG` (router, chatbot,
  sentiment, calming, summarize, calculator nodes, all with local
  error handling);
* `src/calculator.js`  — embedded in namespace `Calc` (same node names, but
  several nodes lack try/catch and the calculator node lacks input
  validation);
* `src/index.js`       — embedded in namespace `Index` (minimal variant whose
  chatbot node lacks try/catch).

External model calls (`model.invoke(...)`) are nondeterministic at this
level: each node that performs one takes the call's outcome as an explicit
argument of type `MRes` (`.ok text` for a successful response, `.error ()`
for a thrown error).  A node written without try/catch is embedded as a
function into `Except Unit ChatState`, so a failing call propagates as
`.error`.  LangGraph's executor itself is a library dependency (not in the
repository); runs are embedded by composing the nodes along the edge
declarations of each file, with a node's returned partial update merged
into the state by per-field replacement, and the list of visited node names
recorded as a trace.
-/

/-- A conversation message `{role, content}`. -/
structure Message where
  role : String
  content : String
deriving Repr, DecidableEq

/-- The conversation state threaded through the graph: `messages` plus the
derived fields written by the analysis nodes (`sentiment`, `calming`,
`summaries`, `route`).  Fields a node never set are `none` / `[]`,
matching `undefined` in the JavaScript state object. -/
structure ChatState where
  messages : List Message
  sentiment : Option String := none
  calming : Option String := none
  summaries : List String := []
  route : Option String := none
deriving Repr, DecidableEq

deriving instance DecidableEq for Except

/-- Outcome of one external model invocation: the response text, or a
thrown error. -/
abbrev MRes := Except Unit String

/-- `state.messages.filter(m => m.role === "user").pop()` — the most recent
user-role message, if any. -/
def lastUserMessage (s : ChatState) : Option Message :=
  (s.messages.filter (fun m => m.role == "user")).getLast?

/-- The JavaScript `\s` character class (as used by `String.prototype.trim`
and by the arithmetic-validation regexes): space, tab, line terminators,
and the Unicode space separators. -/
def jsWhitespace (c : Char) : Bool :=
  let n := c.toNat
  n = 0x20 || n = 0x09 || n = 0x0A || n = 0x0B || n = 0x0C || n = 0x0D ||
  n = 0xA0 || n = 0x1680 || (0x2000 <= n && n <= 0x200A) ||
  n = 0x2028 || n = 0x2029 || n = 0x202F || n = 0x205F || n = 0x3000 ||
  n = 0xFEFF

/-- Drop leading and trailing `\s` characters from a character list. -/
def trimL (l : List Char) : List Char :=
  ((l.dropWhile jsWhitespace).reverse.dropWhile jsWhitespace).reverse

/-- JavaScript `String.prototype.trim`. -/
def jsTrim (s : String) : String :=
  ⟨trimL s.data⟩

/-- JavaScript `String.prototype.toLowerCase` (ASCII; the classifier
replies compared against it are plain ASCII words). -/
def jsToLower (s : String) : String :=
  ⟨s.data.map Char.toLower⟩

/-- Membership in the allow-listed arithmetic character class
`[0-9+\-*/.() \s]` of the router / calculator regexes. -/
def isMathChar (c : Char) : Bool :=
  c.isDigit || c = '+' || c = '-' || c = '*' || c = '/' || c = '.' ||
  c = '(' || c = ')' || c = ' ' || jsWhitespace c

/-- `/^[0-9+\-*/.() \s]+$/.test t`: `t` is non-empty and every character is
in the arithmetic class. -/
def regexTest (t : String) : Bool :=
  !t.isEmpty && t.data.all isMathChar

/-- The routing / validation check the sources apply to a raw message:
the regex test on the trimmed content. -/
def isArithmetic (content : String) : Bool :=
  regexTest (jsTrim content)

/-- Appending the CLI's new user message before a run
(`messages: [...state.messages, {role: "user", content: input}]`). -/
def pushUser (s : ChatState) (input : String) : ChatState :=
  { s with messages := s.messages ++ [⟨"user", input⟩] }

/-!
Model of JavaScript evaluation of arithmetic text

Both calculator nodes hand the text to
`Function(`"use strict"; return (${expr})`)()`.  On text drawn from the
arithmetic character class this is evaluation of a `+ - * / ( )` expression
over numeric literals, which we model exactly over `ℚ` with explicit
`Infinity` / `NaN` values for division by zero.  Modelling boundaries
(documented, all mapping to branches the theorems below do not quantify
over): IEEE-754 rounding, overflow to `Infinity`, and decimal result
formatting are idealised by exact rational arithmetic; negative zero is
not tracked; the `**` operator and positions where JavaScript would lex a
regex literal (e.g. `(/5/)`) are modelled as evaluation errors; strict
mode rejects legacy-octal literals such as `012`, which the lexer below
also rejects.
-/

/-- A JavaScript number produced by arithmetic: a finite value (exact
rational), an infinity, or `NaN`. -/
inductive JsNum where
  | fin (q : ℚ)
  | posInf
  | negInf
  | nan
deriving Repr, DecidableEq

/-- Unary minus. -/
def JsNum.neg : JsNum → JsNum
  | .fin q => .fin (-q)
  | .posInf => .negInf
  | .negInf => .posInf
  | .nan => .nan

/-- IEEE addition restricted to these values. -/
def JsNum.add : JsNum → JsNum → JsNum
  | .fin a, .fin b => .fin (a + b)
  | .fin _, .posInf => .posInf
  | .fin _, .negInf => .negInf
  | .posInf, .fin _ => .posInf
  | .negInf, .fin _ => .negInf
  | .posInf, .posInf => .posInf
  | .negInf, .negInf => .negInf
  | .posInf, .negInf => .nan
  | .negInf, .posInf => .nan
  | _, _ => .nan

/-- IEEE subtraction: `a - b = a + (-b)`. -/
def JsNum.sub (a b : JsNum) : JsNum :=
  a.add b.neg

/-- IEEE multiplication restricted to these values. -/
def JsNum.mul : JsNum → JsNum → JsNum
  | .fin a, .fin b => .fin (a * b)
  | .fin a, .posInf => if a = 0 then .nan else if 0 < a then .posInf else .negInf
  | .fin a, .negInf => if a = 0 then .nan else if 0 < a then .negInf else .posInf
  | .posInf, .fin b => if b = 0 then .nan else if 0 < b then .posInf else .negInf
  | .negInf, .fin b => if b = 0 then .nan else if 0 < b then .negInf else .posInf
  | .posInf, .posInf => .posInf
  | .negInf, .negInf => .posInf
  | .posInf, .negInf => .negInf
  | .negInf, .posInf => .negInf
  | _, _ => .nan

/-- IEEE division restricted to these values; `x/0` is the signed infinity
(or `NaN` for `0/0`), a finite value divided by an infinity is `0`. -/
def JsNum.div : JsNum → JsNum → JsNum
  | .fin a, .fin b =>
      if b = 0 then
        if a = 0 then .nan else if 0 < a then .posInf else .negInf
      else .fin (a / b)
  | .fin _, .posInf => .fin 0
  | .fin _, .negInf => .fin 0
  | .posInf, .fin b => if 0 ≤ b then .posInf else .negInf
  | .negInf, .fin b => if 0 ≤ b then .negInf else .posInf
  | _, _ => .nan

/-- This value's `isFinite`. -/
def JsNum.isFin : JsNum → Bool
  | .fin _ => true
  | _ => false

/-- How JavaScript string interpolation displays the value (finite values
idealised as exact rationals). -/
def JsNum.display : JsNum → String
  | .fin q => toString q
  | .posInf => "Infinity"
  | .negInf => "-Infinity"
  | .nan => "NaN"

/-- Tokens of the arithmetic fragment.  `dblPlus` / `dblMinus` / `dblStar`
are the maximal-munch lexes of `++`, `--` and `**`; the parser rejects
them (`++`/`--` on these operands is a strict-mode SyntaxError in
JavaScript, and `**` is outside the modelled fragment). -/
inductive Tok where
  | num (v : ℚ)
  | plus | minus | star | slash | lparen | rparen
  | dblPlus | dblMinus | dblStar
deriving Repr, DecidableEq

/-- Numeric value of a digit run. -/
def digitsToNat (ds : List Char) : Nat :=
  ds.foldl (fun n c => 10 * n + (c.toNat - 48)) 0

/-- A multi-digit integer part starting with `0` is a legacy-octal-style
literal, a SyntaxError in strict mode. -/
def leadingZeroBad : List Char → Bool
  | '0' :: _ :: _ => true
  | _ => false

/-- Rational value of `intDs . fracDs`. -/
def mkNumLit (intDs fracDs : List Char) : ℚ :=
  (digitsToNat intDs : ℚ) + (digitsToNat fracDs : ℚ) / ((10 : ℚ) ^ fracDs.length)

/-- Lex one numeric literal (`5`, `5.`, `.5`, `2.75`); `none` on a lone `.`
or a strict-mode-rejected leading zero. -/
def lexNum (cs : List Char) : Option (ℚ × List Char) :=
  let intDs := cs.takeWhile Char.isDigit
  let rest := cs.dropWhile Char.isDigit
  match rest with
  | '.' :: rest2 =>
      let fracDs := rest2.takeWhile Char.isDigit
      let rest3 := rest2.dropWhile Char.isDigit
      if intDs.isEmpty && fracDs.isEmpty then none
      else if leadingZeroBad intDs then none
      else some (mkNumLit intDs fracDs, rest3)
  | _ =>
      if intDs.isEmpty then none
      else if leadingZeroBad intDs then none
      else some ((digitsToNat intDs : ℚ), rest)

/-- Tokenizer; the fuel only bounds recursion and `input.length + 1` always
suffices since every step consumes at least one character. -/
def tokenize : Nat → List Char → Option (List Tok)
  | 0, _ => none
  | _, [] => some []
  | fuel + 1, c :: cs =>
    if jsWhitespace c then tokenize fuel cs
    else if c = '+' then
      match cs with
      | '+' :: cs2 => (tokenize fuel cs2).map (Tok.dblPlus :: ·)
      | _ => (tokenize fuel cs).map (Tok.plus :: ·)
    else if c = '-' then
      match cs with
      | '-' :: cs2 => (tokenize fuel cs2).map (Tok.dblMinus :: ·)
      | _ => (tokenize fuel cs).map (Tok.minus :: ·)
    else if c = '*' then
      match cs with
      | '*' :: cs2 => (tokenize fuel cs2).map (Tok.dblStar :: ·)
      | _ => (tokenize fuel cs).map (Tok.star :: ·)
    else if c = '/' then (tokenize fuel cs).map (Tok.slash :: ·)
    else if c = '(' then (tokenize fuel cs).map (Tok.lparen :: ·)
    else if c = ')' then (tokenize fuel cs).map (Tok.rparen :: ·)
    else if c.isDigit || c = '.' then
      match lexNum (c :: cs) with
      | some (q, rest) => (tokenize fuel rest).map (Tok.num q :: ·)
      | none => none
    else none

mutual

/-- `AdditiveExpression := Multiplicative (('+' | '-') Multiplicative)*`. -/
def parseAdd : Nat → List Tok → Option (JsNum × List Tok)
  | 0, _ => none
  | f + 1, ts =>
    match parseMul f ts with
    | some (v, ts1) => parseAddRest f v ts1
    | none => none

/-- Left-associated chain of `+` / `-`. -/
def parseAddRest : Nat → JsNum → List Tok → Option (JsNum × List Tok)
  | 0, _, _ => none
  | f + 1, v, Tok.plus :: ts =>
    match parseMul f ts with
    | some (w, ts1) => parseAddRest f (v.add w) ts1
    | none => none
  | f + 1, v, Tok.minus :: ts =>
    match parseMul f ts with
    | some (w, ts1) => parseAddRest f (v.sub w) ts1
    | none => none
  | _ + 1, v, ts => some (v, ts)

/-- `Multiplicative := Unary (('*' | '/') Unary)*`. -/
def parseMul : Nat → List Tok → Option (JsNum × List Tok)
  | 0, _ => none
  | f + 1, ts =>
    match parseUnary f ts with
    | some (v, ts1) => parseMulRest f v ts1
    | none => none

/-- Left-associated chain of `*` / `/`. -/
def parseMulRest : Nat → JsNum → List Tok → Option (JsNum × List Tok)
  | 0, _, _ => none
  | f + 1, v, Tok.star :: ts =>
    match parseUnary f ts with
    | some (w, ts1) => parseMulRest f (v.mul w) ts1
    | none => none
  | f + 1, v, Tok.slash :: ts =>
    match parseUnary f ts with
    | some (w, ts1) => parseMulRest f (v.div w) ts1
    | none => none
  | _ + 1, v, ts => some (v, ts)

/-- `Unary := ('+' | '-')* Primary` (unary `+` on a number is the
identity). -/
def parseUnary : Nat → List Tok → Option (JsNum × List Tok)
  | 0, _ => none
  | f + 1, Tok.plus :: ts => parseUnary f ts
  | f + 1, Tok.minus :: ts =>
    match parseUnary f ts with
    | some (v, ts1) => some (v.neg, ts1)
    | none => none
  | f + 1, ts => parsePrimary f ts

/-- `Primary := numeric literal | '(' Additive ')'`. -/
def parsePrimary : Nat → List Tok → Option (JsNum × List Tok)
  | 0, _ => none
  | _ + 1, Tok.num q :: ts => some (.fin q, ts)
  | f + 1, Tok.lparen :: ts =>
    match parseAdd f ts with
    | some (v, Tok.rparen :: ts2) => some (v, ts2)
    | _ => none
  | _, _ => none

end

/-- The whole evaluation `Function(`"use strict"; return (${s})`)()`:
lex, parse as one complete expression, and compute the numeric value.
`.error ()` models any thrown error (SyntaxError, ReferenceError,
TypeError, …). -/
def jsEval (s : String) : Except Unit JsNum :=
  match tokenize (s.length + 1) s.data with
  | none => .error ()
  | some ts =>
    match parseAdd (4 * ts.length + 8) ts with
    | some (v, []) => .ok v
    | _ => .error ()

/-- The model-call outcomes a single run can consume, one per
model-invoking node. -/
structure Oracle where
  chat : MRes
  senti : MRes
  calm : MRes
  summ : MRes

/-- Result of one graph run: the final state, the names of the nodes
visited in order, and the strings handed to the generic expression
evaluator (`Function`). -/
structure RunResult where
  state : ChatState
  trace : List String
  evalLog : List String
deriving Repr, DecidableEq

namespace LG

/-!  Embedding of `src/langGraph.js`.  -/

/-- Fallback text of the chatbot node's catch branch. -/
def fallbackMsg : String := "Sorry, I encountered an error. Please try again."

/-- `callModel` (lines 19–40): invoke the model; on success append the
response as an assistant message, on a thrown error append the fallback
assistant message. -/
def callModel (s : ChatState) (r : MRes) : ChatState :=
  match r with
  | .ok t => { s with messages := s.messages ++ [⟨"assistant", t⟩] }
  | .error _ => { s with messages := s.messages ++ [⟨"assistant", fallbackMsg⟩] }

/-- `summarizeNode` (lines 43–65): with more than 10 accumulated messages,
append the model's summary to `summaries`; on a thrown error the catch
only logs and the function falls through to `return state`. -/
def summarizeNode (s : ChatState) (r : MRes) : ChatState :=
  if 10 < s.messages.length then
    match r with
    | .ok t => { s with summaries := s.summaries ++ [t] }
    | .error _ => s
  else s

/-- The three admissible sentiment tags. -/
def validSentiments : List String := ["positive", "neutral", "negative"]

/-- `analysis.content.toLowerCase().trim()` coerced to a valid tag
(`'neutral'` when unrecognised), and `'neutral'` on a thrown error. -/
def sentimentOf (r : MRes) : String :=
  match r with
  | .ok t =>
    let x := jsTrim (jsToLower t)
    if validSentiments.contains x then x else "neutral"
  | .error _ => "neutral"

/-- `sentimentNode` (lines 68–92): no user message → state unchanged;
otherwise store the coerced classifier verdict. -/
def sentimentNode (s : ChatState) (r : MRes) : ChatState :=
  match lastUserMessage s with
  | none => s
  | some _ => { s with sentiment := some (sentimentOf r) }

/-- `calmingNode` (lines 95–116): runs only when a user message exists and
`state.sentiment === 'negative'`; stores the model text, and returns the
state unchanged on a thrown error. -/
def calmingNode (s : ChatState) (r : MRes) : ChatState :=
  match lastUserMessage s with
  | none => s
  | some _ =>
    if s.sentiment = some "negative" then
      match r with
      | .ok t => { s with calming := some t }
      | .error _ => s
    else s

/-- The calculator node's result message. -/
def calcResultMsg (e : String) (q : ℚ) : String :=
  "📊 **Calculation Result:** " ++ e ++ " = **" ++ toString q ++ "**"

/-- The calculator node's catch-branch message. -/
def calcErrorMsg : String :=
  "Sorry, I couldn\x27t calculate that expression. Please check your syntax."

/-- `calculatorNode` (lines 119–151): validate the trimmed last user
message against the arithmetic regex; only then evaluate it.  A finite
numeric result is announced, a non-finite result falls through to
`return state`, a thrown evaluation error is caught and reported.  The
second component records every string handed to `Function`. -/
def calculatorNode (s : ChatState) : ChatState × List String :=
  match lastUserMessage s with
  | none => (s, [])
  | some m =>
    let e := jsTrim m.content
    if regexTest e then
      match jsEval e with
      | .ok (.fin q) =>
        ({ s with messages := s.messages ++ [⟨"assistant", calcResultMsg e q⟩] }, [e])
      | .ok _ => (s, [e])
      | .error _ =>
        ({ s with messages := s.messages ++ [⟨"assistant", calcErrorMsg⟩] }, [e])
    else (s, [])

/-- `routerNode` (lines 154–166): classify the trimmed last user message
and record the branch in `route`. -/
def routerNode (s : ChatState) : ChatState :=
  match lastUserMessage s with
  | none => s
  | some m =>
    if isArithmetic m.content then { s with route := some "calculator" }
    else { s with route := some "chatbot" }

/-- One run of the compiled graph, following the edge declarations of
lines 178–191: `__start__ → router`, conditional edges on `route`
(`calculator` terminal; `chatbot → sentiment`), conditional edges on
`sentiment` (`calming → summarize` when negative, else `summarize`),
`summarize → __end__`.  Partial updates merge by per-field replacement. -/
def run (s : ChatState) (o : Oracle) : RunResult :=
  let s1 := routerNode s
  if s1.route = some "calculator" then
    let p := calculatorNode s1
    ⟨p.1, ["router", "calculator"], p.2⟩
  else if s1.route = some "chatbot" then
    let s2 := callModel s1 o.chat
    let s3 := sentimentNode s2 o.senti
    if s3.sentiment = some "negative" then
      let s4 := calmingNode s3 o.calm
      let s5 := summarizeNode s4 o.summ
      ⟨s5, ["router", "chatbot", "sentiment", "calming", "summarize"], []⟩
    else
      let s5 := summarizeNode s3 o.summ
      ⟨s5, ["router", "chatbot", "sentiment", "summarize"], []⟩
  else
    -- neither conditional-edge predicate matched (possible only when the
    -- incoming state carries no user message and an exotic `route`)
    ⟨s1, ["router"], []⟩

end LG

namespace Calc

/-!  Embedding of `src/calculator.js`.  Nodes written without try/catch
return `Except Unit ChatState`, so a failing model call propagates. -/

/-- `callModel` (lines 82–99): catches a failed call and appends its own
fallback text. -/
def callModel (s : ChatState) (r : MRes) : ChatState :=
  match r with
  | .ok t => { s with messages := s.messages ++ [⟨"assistant", t⟩] }
  | .error _ => { s with messages := s.messages ++ [⟨"assistant", "⚠️ Something went wrong."⟩] }

/-- `summarizeNode` (lines 102–118): threshold 5, no try/catch. -/
def summarizeNode (s : ChatState) (r : MRes) : Except Unit ChatState :=
  if 5 < s.messages.length then
    match r with
    | .ok t => .ok { s with summaries := s.summaries ++ [t] }
    | .error e => .error e
  else .ok s

/-- `sentimentNode` (lines 121–135): no try/catch and no validation — the
lowercased, trimmed classifier text is stored as-is. -/
def sentimentNode (s : ChatState) (r : MRes) : Except Unit ChatState :=
  match lastUserMessage s with
  | none => .ok s
  | some _ =>
    match r with
    | .ok t => .ok { s with sentiment := some (jsTrim (jsToLower t)) }
    | .error e => .error e

/-- `calmingNode` (lines 138–148): no sentiment check (the graph edge
gates it) and no try/catch. -/
def calmingNode (s : ChatState) (r : MRes) : Except Unit ChatState :=
  match lastUserMessage s with
  | none => .ok s
  | some _ =>
    match r with
    | .ok t => .ok { s with calming := some t }
    | .error e => .error e

/-- `calculatorNode` (lines 150–168): hands the *untrimmed* last user
message straight to `Function` with no validation; a thrown error becomes
the string `"⚠️ Invalid math expression."`, and whatever results —
including `Infinity` / `NaN` — is interpolated into the reply. -/
def calculatorNode (s : ChatState) : ChatState × List String :=
  match lastUserMessage s with
  | none => (s, [])
  | some m =>
    let res : String :=
      match jsEval m.content with
      | .ok v => v.display
      | .error _ => "⚠️ Invalid math expression."
    ({ s with messages := s.messages ++ [⟨"assistant", "📊 Result: " ++ res⟩] },
     [m.content])

/-- The `router → calculator` edge predicate (lines 180–187): a user
message exists and its trimmed content matches the arithmetic regex. -/
def mathRoute (s : ChatState) : Bool :=
  match lastUserMessage s with
  | none => false
  | some m => isArithmetic m.content

/-- One run following the edge declarations of lines 171–205: the router
node is the identity; `router → calculator` on `mathRoute`, otherwise
`router → chatbot → sentiment`, then `calming` when sentiment is negative
(declared first), else `summarize` when more than 5 messages, else end.
`calming` and `summarize` have no outgoing edges. -/
def run (s : ChatState) (o : Oracle) : Except Unit RunResult :=
  if mathRoute s then
    let p := calculatorNode s
    .ok ⟨p.1, ["router", "calculator"], p.2⟩
  else
    match sentimentNode (callModel s o.chat) o.senti with
    | .error e => .error e
    | .ok s3 =>
      if s3.sentiment = some "negative" then
        match calmingNode s3 o.calm with
        | .error e => .error e
        | .ok s4 => .ok ⟨s4, ["router", "chatbot", "sentiment", "calming"], []⟩
      else if 5 < s3.messages.length then
        match summarizeNode s3 o.summ with
        | .error e => .error e
        | .ok s4 => .ok ⟨s4, ["router", "chatbot", "sentiment", "summarize"], []⟩
      else .ok ⟨s3, ["router", "chatbot", "sentiment"], []⟩

end Calc

namespace Index

/-!  Embedding of `src/index.js`.  -/

/-- `callModel` (lines 13–21): invokes the model with **no** try/catch;
a thrown call error leaves the node as `.error`.  On success the response
is appended with role `"ai"`. -/
def callModel (s : ChatState) (r : MRes) : Except Unit ChatState :=
  match r with
  | .ok t => .ok { s with messages := s.messages ++ [⟨"ai", t⟩] }
  | .error e => .error e

end Index

/-!
Fixtures used by witnesses and counterexamples
-/

/-- A state whose last user message is the spec's example expression. -/
def stMath : ChatState := { messages := [⟨"user", "2+2*3"⟩] }

/-- A state whose last user message is ordinary (negative-toned) chat. -/
def stTerrible : ChatState := { messages := [⟨"user", "I feel terrible today"⟩] }

/-- A state containing no user-role message. -/
def stNoUser : ChatState := { messages := [⟨"assistant", "hi"⟩] }

/-- A state asking for a division by zero. -/
def stDiv0 : ChatState := { messages := [⟨"user", "1/0"⟩] }

/-- A state with 11 accumulated messages (above the threshold 10). -/
def st11 : ChatState := { messages := List.replicate 11 ⟨"user", "x"⟩ }

/-- All four model calls succeed, the classifier saying `negative`. -/
def oBase : Oracle := ⟨.ok "chat-reply", .ok "negative", .ok "calm-text", .ok "sum"⟩

/-- Same but the calming call throws. -/
def oCalmFail : Oracle := ⟨.ok "chat-reply", .ok "negative", .error (), .ok "sum"⟩

/-- Same but the chatbot call throws. -/
def oChatFail : Oracle := ⟨.error (), .ok "positive", .ok "calm-text", .ok "sum"⟩

/-- The assistant text the `langGraph.js` chatbot node appends: the model
response, or the fallback text when the call threw. -/
def chatText (r : MRes) : String :=
  match r with
  | .ok t => t
  | .error _ => LG.fallbackMsg

/-- Every string handed to the generic evaluator during a
`calculator.js` run is drawn from the arithmetic character class
(vacuously so when the run propagates an error). -/
def calcRunLogValid (s : ChatState) (o : Oracle) : Bool :=
  match Calc.run s o with
  | .ok r => r.evalLog.all (fun e => e.data.all isMathChar)
  | .error _ => true

/-!
Helper lemmas
-/

lemma isMathChar_of_ws {c : Char} (h : jsWhitespace c = true) :
    isMathChar c = true := by
  simp [isMathChar, h]

/-- Trimming only removes `\s` characters: every character of `l` is in
`trimL l` or is whitespace. -/
lemma mem_trimL_or_ws {l : List Char} {c : Char} (h : c ∈ l) :
    c ∈ trimL l ∨ jsWhitespace c = true := by
  have h1 : c ∈ l.takeWhile jsWhitespace ++ l.dropWhile jsWhitespace := by
    rw [List.takeWhile_append_dropWhile]; exact h
  rcases List.mem_append.mp h1 with h2 | h2
  · exact Or.inr (List.mem_takeWhile_imp h2)
  · have h3 : c ∈ (l.dropWhile jsWhitespace).reverse := List.mem_reverse.mpr h2
    have h4 : c ∈ (l.dropWhile jsWhitespace).reverse.takeWhile jsWhitespace ++
        (l.dropWhile jsWhitespace).reverse.dropWhile jsWhitespace := by
      rw [List.takeWhile_append_dropWhile]; exact h3
    rcases List.mem_append.mp h4 with h5 | h5
    · exact Or.inr (List.mem_takeWhile_imp h5)
    · exact Or.inl (List.mem_reverse.mpr h5)

/-- If the trimmed text is drawn from the arithmetic class, so is the
original text (trimming only removes whitespace, which is in the class). -/
lemma all_isMathChar_of_trimL {l : List Char}
    (h : (trimL l).all isMathChar = true) : l.all isMathChar = true := by
  rw [List.all_eq_true] at h ⊢
  intro c hc
  rcases mem_trimL_or_ws hc with h2 | h2
  · exact h c h2
  · exact isMathChar_of_ws h2

/-- A character outside the arithmetic class survives trimming. -/
lemma mem_trimL_of_badChar {l : List Char} {c : Char} (hc : c ∈ l)
    (hbad : isMathChar c = false) : c ∈ trimL l := by
  rcases mem_trimL_or_ws hc with h | h
  · exact h
  · exact absurd (isMathChar_of_ws h) (by simp [hbad])

/-- A message containing any character outside the arithmetic class fails
the routing test. -/
lemma isArithmetic_eq_false_of_badChar {content : String} {c : Char}
    (hc : c ∈ content.data) (hbad : isMathChar c = false) :
    isArithmetic content = false := by
  unfold isArithmetic regexTest
  have hmem : c ∈ (jsTrim content).data := mem_trimL_of_badChar hc hbad
  have : (jsTrim content).data.all isMathChar = false := by
    rw [Bool.eq_false_iff]
    intro hall
    rw [List.all_eq_true] at hall
    have := hall c hmem
    simp [hbad] at this
  simp [this]

/-- Appending a non-user message does not change the last user message. -/
lemma lastUserMessage_append_nonuser (s : ChatState) (role t : String)
    (h : (role == "user") = false) :
    lastUserMessage { s with messages := s.messages ++ [⟨role, t⟩] } =
      lastUserMessage s := by
  simp [lastUserMessage, List.filter_append, List.filter_cons, h]

lemma lg_callModel_eq (s : ChatState) (r : MRes) :
    LG.callModel s r =
      { s with messages := s.messages ++ [⟨"assistant", chatText r⟩] } := by
  cases r <;> rfl

lemma lg_routerNode_messages (s : ChatState) :
    (LG.routerNode s).messages = s.messages := by
  unfold LG.routerNode
  cases lastUserMessage s with
  | none => rfl
  | some m => by_cases h : isArithmetic m.content <;> simp [h]

lemma lg_sentimentNode_fields (s : ChatState) (r : MRes) :
    (LG.sentimentNode s r).messages = s.messages ∧
    (LG.sentimentNode s r).calming = s.calming ∧
    (LG.sentimentNode s r).summaries = s.summaries := by
  unfold LG.sentimentNode
  cases lastUserMessage s with
  | none => exact ⟨rfl, rfl, rfl⟩
  | some m => exact ⟨rfl, rfl, rfl⟩

lemma lg_summarizeNode_fields (s : ChatState) (r : MRes) :
    (LG.summarizeNode s r).messages = s.messages ∧
    (LG.summarizeNode s r).sentiment = s.sentiment ∧
    (LG.summarizeNode s r).calming = s.calming := by
  unfold LG.summarizeNode
  by_cases h : 10 < s.messages.length
  · cases r <;> simp [h]
  · simp [h]

lemma lg_calmingNode_fields (s : ChatState) (r : MRes) :
    (LG.calmingNode s r).messages = s.messages ∧
    (LG.calmingNode s r).sentiment = s.sentiment ∧
    (LG.calmingNode s r).summaries = s.summaries := by
  unfold LG.calmingNode
  cases lastUserMessage s with
  | none => exact ⟨rfl, rfl, rfl⟩
  | some m =>
    by_cases h : s.sentiment = some "negative"
    · cases r <;> simp [h]
    · simp [h]

lemma lg_routerNode_chat (s : ChatState) (m : Message)
    (h : lastUserMessage s = some m) (ha : isArithmetic m.content = false) :
    LG.routerNode s = { s with route := some "chatbot" } := by
  unfold LG.routerNode
  rw [h]
  simp [ha]

lemma lg_routerNode_calc (s : ChatState) (m : Message)
    (h : lastUserMessage s = some m) (ha : isArithmetic m.content = true) :
    LG.routerNode s = { s with route := some "calculator" } := by
  unfold LG.routerNode
  rw [h]
  simp [ha]


/-- Full characterisation of a `langGraph.js` run that takes the chat
path (the last user message is not arithmetic). -/
lemma lg_run_chat (s : ChatState) (o : Oracle) (m : Message)
    (h : lastUserMessage s = some m) (ha : isArithmetic m.content = false) :
    (LG.run s o).state.messages = s.messages ++ [⟨"assistant", chatText o.chat⟩] ∧
    (LG.run s o).state.sentiment = some (LG.sentimentOf o.senti) ∧
    (LG.run s o).state.calming =
      (if LG.sentimentOf o.senti = "negative" then
        match o.calm with
        | .ok t => some t
        | .error _ => s.calming
      else s.calming) ∧
    (LG.run s o).trace.getLast? = some "summarize" ∧
    (LG.run s o).evalLog = [] := by
  have hrw : LG.routerNode s = { s with route := some "chatbot" } :=
    lg_routerNode_chat s m h ha
  unfold LG.run
  rw [hrw]
  simp only [reduceIte, reduceCtorEq]
  rw [if_neg (show ¬ ((some "chatbot" : Option String) = some "calculator") by decide)]
  set s1 : ChatState := { s with route := some "chatbot" } with hs1
  have h1 : lastUserMessage s1 = some m := h
  set s2 : ChatState := LG.callModel s1 o.chat with hs2
  have h2m : s2.messages = s.messages ++ [⟨"assistant", chatText o.chat⟩] := by
    rw [hs2, lg_callModel_eq]
  have h2u : lastUserMessage s2 = some m := by
    rw [hs2, lg_callModel_eq]
    exact (lastUserMessage_append_nonuser s1 "assistant" (chatText o.chat) (by decide)).trans h1
  have h2c : s2.calming = s.calming := by rw [hs2, lg_callModel_eq]
  set s3 : ChatState := LG.sentimentNode s2 o.senti with hs3
  have h3 : s3 = { s2 with sentiment := some (LG.sentimentOf o.senti) } := by
    rw [hs3]; unfold LG.sentimentNode; rw [h2u]
  have h3u : lastUserMessage s3 = some m := by rw [h3]; exact h2u
  by_cases hneg : LG.sentimentOf o.senti = "negative"
  · have hcond : s3.sentiment = some "negative" := by rw [h3, hneg]
    rw [if_pos hcond, if_pos hneg]
    set s4 : ChatState := LG.calmingNode s3 o.calm with hs4
    obtain ⟨g1, g2, g3⟩ := lg_summarizeNode_fields s4 o.summ
    cases hc : o.calm with
    | ok t =>
      have h4 : s4 = { s3 with calming := some t } := by
        rw [hs4]; unfold LG.calmingNode; rw [h3u]; simp [hcond, hc]
      refine ⟨?_, ?_, ?_, rfl, rfl⟩
      · show (LG.summarizeNode s4 o.summ).messages = _
        rw [g1, h4]; show s3.messages = _ ; rw [h3]; exact h2m
      · show (LG.summarizeNode s4 o.summ).sentiment = _
        rw [g2, h4]; show s3.sentiment = _ ; rw [h3]
      · show (LG.summarizeNode s4 o.summ).calming = _
        rw [g3, h4]
    | error e =>
      have h4 : s4 = s3 := by
        rw [hs4]; unfold LG.calmingNode; rw [h3u]; simp [hcond, hc]
      refine ⟨?_, ?_, ?_, rfl, rfl⟩
      · show (LG.summarizeNode s4 o.summ).messages = _
        rw [g1, h4, h3]; exact h2m
      · show (LG.summarizeNode s4 o.summ).sentiment = _
        rw [g2, h4, h3]
      · show (LG.summarizeNode s4 o.summ).calming = _
        rw [g3, h4, h3]; show s2.calming = _ ; rw [h2c]
  · have hcond : ¬ (s3.sentiment = some "negative") := by
      rw [h3]; simpa using hneg
    rw [if_neg hcond, if_neg hneg]
    obtain ⟨g1, g2, g3⟩ := lg_summarizeNode_fields s3 o.summ
    refine ⟨?_, ?_, ?_, rfl, rfl⟩
    · show (LG.summarizeNode s3 o.summ).messages = _
      rw [g1, h3]; exact h2m
    · show (LG.summarizeNode s3 o.summ).sentiment = _
      rw [g2, h3]
    · show (LG.summarizeNode s3 o.summ).calming = _
      rw [g3, h3]; show s2.calming = _ ; rw [h2c]

/-- The `langGraph.js` calculator node on a validated expression with a
finite value: announce the result. -/
lemma lg_calculatorNode_fin (s : ChatState) (m : Message) (q : ℚ)
    (h : lastUserMessage s = some m)
    (ha : regexTest (jsTrim m.content) = true)
    (he : jsEval (jsTrim m.content) = .ok (.fin q)) :
    LG.calculatorNode s =
      ({ s with messages :=
          s.messages ++ [⟨"assistant", LG.calcResultMsg (jsTrim m.content) q⟩] },
       [jsTrim m.content]) := by
  unfold LG.calculatorNode
  rw [h]
  simp [ha, he]

/-- The `langGraph.js` calculator node on a validated expression with a
non-finite value: fall through, announcing nothing. -/
lemma lg_calculatorNode_nonfin (s : ChatState) (m : Message) (v : JsNum)
    (h : lastUserMessage s = some m)
    (ha : regexTest (jsTrim m.content) = true)
    (he : jsEval (jsTrim m.content) = .ok v) (hv : v.isFin = false) :
    LG.calculatorNode s = (s, [jsTrim m.content]) := by
  unfold LG.calculatorNode
  rw [h]
  cases v with
  | fin q => simp [JsNum.isFin] at hv
  | posInf => simp [ha, he]
  | negInf => simp [ha, he]
  | nan => simp [ha, he]

/-- Every string the `langGraph.js` calculator node hands to the
evaluator passed the regex test. -/
lemma lg_calculatorNode_log (s : ChatState) :
    (LG.calculatorNode s).2.all regexTest = true := by
  unfold LG.calculatorNode
  cases h : lastUserMessage s with
  | none => rfl
  | some m =>
    by_cases hr : regexTest (jsTrim m.content)
    · cases he : jsEval (jsTrim m.content) with
      | ok v => cases v <;> simp [hr, he]
      | error e => simp [hr, he]
    · simp [hr]

/-- Every string a `langGraph.js` run hands to the evaluator passed the
regex test. -/
lemma lg_run_log (s : ChatState) (o : Oracle) :
    (LG.run s o).evalLog.all regexTest = true := by
  unfold LG.run
  dsimp only
  split
  · exact lg_calculatorNode_log _
  · split
    · split <;> rfl
    · rfl

/-- Characterisation of a `langGraph.js` run that takes the calculator
path on an expression with a finite value: the result message is appended,
the run terminates right after the calculator, and no other node runs. -/
lemma lg_run_calc_fin (s : ChatState) (o : Oracle) (m : Message) (q : ℚ)
    (h : lastUserMessage s = some m)
    (ha : isArithmetic m.content = true)
    (he : jsEval (jsTrim m.content) = .ok (.fin q)) :
    (LG.run s o).state.messages =
      s.messages ++ [⟨"assistant", LG.calcResultMsg (jsTrim m.content) q⟩] ∧
    (LG.run s o).state.sentiment = s.sentiment ∧
    (LG.run s o).state.summaries = s.summaries ∧
    (LG.run s o).state.calming = s.calming ∧
    (LG.run s o).trace = ["router", "calculator"] := by
  have hrw : LG.routerNode s = { s with route := some "calculator" } :=
    lg_routerNode_calc s m h ha
  unfold LG.run
  rw [hrw]
  dsimp only
  rw [if_pos (show ((some "calculator" : Option String) = some "calculator") from rfl)]
  have h1 : lastUserMessage ({ s with route := some "calculator" } : ChatState) = some m := h
  have hnode := lg_calculatorNode_fin ({ s with route := some "calculator" } : ChatState)
    m q h1 ha he
  rw [hnode]
  exact ⟨rfl, rfl, rfl, rfl, rfl⟩

/-- Every string a `calculator.js` run hands to the evaluator is drawn
from the arithmetic character class. -/
lemma calc_run_log (s : ChatState) (o : Oracle) :
    calcRunLogValid s o = true := by
  unfold calcRunLogValid Calc.run
  by_cases hm : Calc.mathRoute s
  · rw [if_pos hm]
    show (Calc.calculatorNode s).2.all (fun e => e.data.all isMathChar) = true
    unfold Calc.mathRoute at hm
    cases h : lastUserMessage s with
    | none => rw [h] at hm; simp at hm
    | some m =>
      rw [h] at hm
      unfold Calc.calculatorNode
      rw [h]
      simp only [List.all_cons, List.all_nil, Bool.and_true]
      have htrim : (jsTrim m.content).data.all isMathChar = true := by
        unfold isArithmetic regexTest at hm
        simp only [Bool.and_eq_true] at hm
        exact hm.2
      exact all_isMathChar_of_trimL htrim
  · rw [if_neg hm]
    cases hsent : Calc.sentimentNode (Calc.callModel s o.chat) o.senti with
    | error e => simp
    | ok s3 =>
      dsimp only
      by_cases hneg : s3.sentiment = some "negative"
      · rw [if_pos hneg]
        cases hcalm : Calc.calmingNode s3 o.calm with
        | error e => simp
        | ok s4 => simp
      · rw [if_neg hneg]
        by_cases hlen : 5 < s3.messages.length
        · rw [if_pos hlen]
          cases hsumm : Calc.summarizeNode s3 o.summ with
          | error e => simp
          | ok s4 => simp
        · rw [if_neg hlen]
          simp

/-- The `langGraph.js` calculator node leaves `messages` alone or appends
to its end. -/
lemma lg_calculatorNode_extends (s : ChatState) :
    s.messages <+: (LG.calculatorNode s).1.messages := by
  unfold LG.calculatorNode
  cases h : lastUserMessage s with
  | none => exact List.prefix_refl _
  | some m =>
    by_cases hr : regexTest (jsTrim m.content)
    · cases he : jsEval (jsTrim m.content) with
      | ok v =>
        cases v <;> simp only [hr, he, if_true] <;>
          first
            | exact List.prefix_append _ _
            | exact List.prefix_refl _
      | error e =>
        simp only [hr, he, if_true]
        exact List.prefix_append _ _
    · simp only [hr, if_false, Bool.false_eq_true]
      exact List.prefix_refl _

/-- The `calculator.js` calculator node leaves `messages` alone or appends
to its end. -/
lemma calc_calculatorNode_extends (s : ChatState) :
    s.messages <+: (Calc.calculatorNode s).1.messages := by
  unfold Calc.calculatorNode
  cases h : lastUserMessage s with
  | none => exact List.prefix_refl _
  | some m =>
    cases he : jsEval m.content with
    | ok v => exact List.prefix_append _ _
    | error e => exact List.prefix_append _ _

/-- A whole `langGraph.js` run only ever extends `messages`. -/
lemma lg_run_extends (s : ChatState) (o : Oracle) :
    s.messages <+: (LG.run s o).state.messages := by
  unfold LG.run
  dsimp only
  split
  · have h1 := lg_calculatorNode_extends (LG.routerNode s)
    rw [lg_routerNode_messages] at h1
    exact h1
  · have e1 : (LG.callModel (LG.routerNode s) o.chat).messages =
        s.messages ++ [⟨"assistant", chatText o.chat⟩] := by
      rw [lg_callModel_eq]
      show (LG.routerNode s).messages ++ _ = _
      rw [lg_routerNode_messages]
    split
    · split
      · have e2 := (lg_sentimentNode_fields (LG.callModel (LG.routerNode s) o.chat) o.senti).1
        have e3 := (lg_calmingNode_fields
          (LG.sentimentNode (LG.callModel (LG.routerNode s) o.chat) o.senti) o.calm).1
        have e4 := (lg_summarizeNode_fields
          (LG.calmingNode (LG.sentimentNode (LG.callModel (LG.routerNode s) o.chat) o.senti) o.calm)
          o.summ).1
        show s.messages <+: (LG.summarizeNode _ o.summ).messages
        rw [e4, e3, e2, e1]
        exact List.prefix_append _ _
      · have e2 := (lg_sentimentNode_fields (LG.callModel (LG.routerNode s) o.chat) o.senti).1
        have e4 := (lg_summarizeNode_fields
          (LG.sentimentNode (LG.callModel (LG.routerNode s) o.chat) o.senti) o.summ).1
        show s.messages <+: (LG.summarizeNode _ o.summ).messages
        rw [e4, e2, e1]
        exact List.prefix_append _ _
    · show s.messages <+: (LG.routerNode s).messages
      rw [lg_routerNode_messages]

/-!
Claim theorems
-/

/-- C10: for every state whose messages contain no user-role message, the
router, sentiment, calming, and calculator nodes of `langGraph.js` each
return the input state unchanged — for every possible model-call outcome
`r`, so no external call can influence the result (the nodes return before
invoking the model), and the calculator node evaluates nothing. -/
theorem c10_no_user_frame (s : ChatState) (r : MRes)
    (h : lastUserMessage s = none) :
    LG.routerNode s = s ∧ LG.sentimentNode s r = s ∧
    LG.calmingNode s r = s ∧ LG.calculatorNode s = (s, []) := by
  unfold LG.routerNode LG.sentimentNode LG.calmingNode LG.calculatorNode
  rw [h]
  exact ⟨rfl, rfl, rfl, rfl⟩

/-- Witness for C10 at a concrete user-message-free state. -/
theorem c10_no_user_frame_witness :
    LG.routerNode stNoUser = stNoUser ∧
    LG.sentimentNode stNoUser (.ok "positive") = stNoUser ∧
    LG.calmingNode stNoUser (.ok "positive") = stNoUser ∧
    LG.calculatorNode stNoUser = (stNoUser, []) :=
  c10_no_user_frame stNoUser (.ok "positive") (by decide)

/-- C3: with a last user message present, the `langGraph.js` router
selects the calculator path exactly when the trimmed message is non-empty
and drawn entirely from the arithmetic character class
(`isArithmetic`), selects the chat path otherwise, and any message
containing even one character outside the class is routed to chat. -/
theorem c3_router_classification (s : ChatState) (m : Message)
    (h : lastUserMessage s = some m) :
    ((LG.routerNode s).route = some "calculator" ↔ isArithmetic m.content = true) ∧
    ((LG.routerNode s).route = some "chatbot" ↔ isArithmetic m.content = false) ∧
    (∀ c ∈ m.content.data, isMathChar c = false →
      (LG.routerNode s).route = some "chatbot") ∧
    Calc.mathRoute s = isArithmetic m.content := by
  have hcalc : Calc.mathRoute s = isArithmetic m.content := by
    unfold Calc.mathRoute
    rw [h]
  unfold LG.routerNode
  rw [h]
  dsimp only
  by_cases ha : isArithmetic m.content = true
  · rw [if_pos ha]
    refine ⟨by simp [ha], by simp [ha], ?_, hcalc⟩
    intro c hc hbad
    exact absurd (isArithmetic_eq_false_of_badChar hc hbad) (by simp [ha])
  · have ha' : isArithmetic m.content = false := by simpa using ha
    rw [if_neg (by simp [ha'])]
    exact ⟨by simp [ha'], by simp [ha'], fun c hc hbad => rfl, hcalc⟩

/-- Witness for C3 at the concrete arithmetic input `2+2*3`. -/
theorem c3_router_classification_witness :
    ((LG.routerNode stMath).route = some "calculator" ↔ isArithmetic "2+2*3" = true) ∧
    ((LG.routerNode stMath).route = some "chatbot" ↔ isArithmetic "2+2*3" = false) ∧
    (∀ c ∈ "2+2*3".data, isMathChar c = false →
      (LG.routerNode stMath).route = some "chatbot") ∧
    Calc.mathRoute stMath = isArithmetic "2+2*3" :=
  c3_router_classification stMath ⟨"user", "2+2*3"⟩ (by decide)

/-- C2: the generic expression evaluator is only ever invoked on validated
text.  Every string the `langGraph.js` calculator node (and hence any
`langGraph.js` run) hands to `Function` passed the arithmetic regex, and
every string a `calculator.js` run hands to `Function` is drawn from the
arithmetic character class (there the validation happens at the
`router → calculator` edge, before the node runs). -/
theorem c2_evaluator_only_validated (s : ChatState) (o : Oracle) :
    ((LG.calculatorNode s).2.all regexTest &&
     (LG.run s o).evalLog.all regexTest &&
     calcRunLogValid s o) = true := by
  rw [lg_calculatorNode_log, lg_run_log, calc_run_log]
  rfl

/-- C4: on an input matching the arithmetic class whose expression
evaluates to a finite value `q`, a `langGraph.js` run appends exactly one
assistant message — the result message, which carries `q` — terminates
right after the calculator, and never visits the chatbot or sentiment
nodes (for every model-call oracle, since none is consulted). -/
theorem c4_calculator_correct_result (s : ChatState) (o : Oracle)
    (m : Message) (q : ℚ)
    (h : lastUserMessage s = some m)
    (ha : isArithmetic m.content = true)
    (he : jsEval (jsTrim m.content) = .ok (.fin q)) :
    (LG.run s o).state.messages =
      s.messages ++ [⟨"assistant", LG.calcResultMsg (jsTrim m.content) q⟩] ∧
    (LG.run s o).trace = ["router", "calculator"] ∧
    "chatbot" ∉ (LG.run s o).trace ∧
    "sentiment" ∉ (LG.run s o).trace := by
  obtain ⟨h1, _, _, _, h5⟩ := lg_run_calc_fin s o m q h ha he
  refine ⟨h1, h5, ?_, ?_⟩
  · rw [h5]; decide
  · rw [h5]; decide

unseal Rat.add Rat.mul Rat.sub Rat.inv in
/-- Witness for C4 at the spec's own example `2+2*3 = 8`. -/
theorem c4_calculator_correct_result_witness :
    (LG.run stMath oBase).state.messages =
      stMath.messages ++ [⟨"assistant", LG.calcResultMsg (jsTrim "2+2*3") 8⟩] ∧
    (LG.run stMath oBase).trace = ["router", "calculator"] ∧
    "chatbot" ∉ (LG.run stMath oBase).trace ∧
    "sentiment" ∉ (LG.run stMath oBase).trace :=
  c4_calculator_correct_result stMath oBase ⟨"user", "2+2*3"⟩ 8
    (by decide) (by decide) (by decide)

/-- C9 (amended): the `langGraph.js` calculator node treats a non-finite
evaluation result (`Infinity` / `NaN`, e.g. from division by zero) as
invalid — it returns the state unchanged, announcing nothing.  (The
`calculator.js` variant instead announces the raw value; see the
counterexample.) -/
theorem c9_nonfinite_not_announced (s : ChatState) (m : Message) (v : JsNum)
    (h : lastUserMessage s = some m)
    (ha : isArithmetic m.content = true)
    (he : jsEval (jsTrim m.content) = .ok v)
    (hv : v.isFin = false) :
    LG.calculatorNode s = (s, [jsTrim m.content]) :=
  lg_calculatorNode_nonfin s m v h ha he hv

/-- Witness for C9 at the division by zero `1/0` (value `Infinity`). -/
theorem c9_nonfinite_not_announced_witness :
    LG.calculatorNode stDiv0 = (stDiv0, [jsTrim "1/0"]) :=
  c9_nonfinite_not_announced stDiv0 ⟨"user", "1/0"⟩ .posInf
    (by decide) (by decide) (by decide) (by decide)

/-- Counterexample for C9 as stated: the `calculator.js` calculator node
(cited by the claim) announces `Infinity` as a numeric result on `1/0`. -/
theorem c9_calc_announces_infinity :
    Calc.calculatorNode stDiv0 =
      ({ stDiv0 with messages :=
          stDiv0.messages ++ [⟨"assistant", "📊 Result: Infinity"⟩] },
       ["1/0"]) := by
  decide

/-- C1 (amended): in `langGraph.js` every model-calling node catches a
failed external call locally — the chatbot appends its fallback assistant
message, the sentiment node stores `neutral`, the calming and summarize
nodes return the state unchanged — and a run whose chatbot call fails
still reaches the terminal summarize node with the fallback text as the
last message.  (`index.js`'s `callModel`, also cited by the claim,
propagates the error instead; see the counterexample.) -/
theorem c1_node_failure_contained (s : ChatState) (o : Oracle) (m : Message)
    (h : lastUserMessage s = some m)
    (ha : isArithmetic m.content = false)
    (hc : o.chat = .error ()) :
    LG.callModel s (.error ()) =
      { s with messages := s.messages ++ [⟨"assistant", LG.fallbackMsg⟩] } ∧
    (LG.sentimentNode s (.error ())).sentiment = some "neutral" ∧
    LG.calmingNode s (.error ()) = s ∧
    LG.summarizeNode s (.error ()) = s ∧
    (LG.run s o).state.messages.getLast? = some ⟨"assistant", LG.fallbackMsg⟩ ∧
    (LG.run s o).trace.getLast? = some "summarize" := by
  obtain ⟨g1, _, _, g4, _⟩ := lg_run_chat s o m h ha
  refine ⟨rfl, ?_, ?_, ?_, ?_, g4⟩
  · unfold LG.sentimentNode
    rw [h]
    dsimp only
    rfl
  · unfold LG.calmingNode
    rw [h]
    dsimp only
    by_cases hs : s.sentiment = some "negative" <;> simp [hs]
  · unfold LG.summarizeNode
    by_cases hl : 10 < s.messages.length <;> simp [hl]
  · rw [g1, hc]
    simp [chatText]

/-- Witness for C1: a chat-path run whose chatbot call throws. -/
theorem c1_node_failure_contained_witness :
    LG.callModel stTerrible (.error ()) =
      { stTerrible with messages :=
          stTerrible.messages ++ [⟨"assistant", LG.fallbackMsg⟩] } ∧
    (LG.sentimentNode stTerrible (.error ())).sentiment = some "neutral" ∧
    LG.calmingNode stTerrible (.error ()) = stTerrible ∧
    LG.summarizeNode stTerrible (.error ()) = stTerrible ∧
    (LG.run stTerrible oChatFail).state.messages.getLast? =
      some ⟨"assistant", LG.fallbackMsg⟩ ∧
    (LG.run stTerrible oChatFail).trace.getLast? = some "summarize" :=
  c1_node_failure_contained stTerrible oChatFail ⟨"user", "I feel terrible today"⟩
    (by decide) (by decide) (by decide)

/-- Counterexample for C1 as stated: `index.js`'s `callModel` (cited by
the claim) has no try/catch, so a failed call propagates the raw error out
of the node instead of returning a fallback state update. -/
theorem c1_index_callmodel_propagates :
    Index.callModel stTerrible (.error ()) = .error () := by
  decide

/-- C5 (amended): the `langGraph.js` sentiment node stores a value drawn
from {positive, neutral, negative} for every possible classifier outcome —
unrecognised replies and thrown errors both coerce to `neutral`.  (The
`calculator.js` sentiment node, also cited by the claim, stores the raw
lowercased text; see the counterexample.) -/
theorem c5_sentiment_coerced (s : ChatState) (r : MRes) (m : Message)
    (h : lastUserMessage s = some m) :
    ∃ v, (LG.sentimentNode s r).sentiment = some v ∧ v ∈ LG.validSentiments := by
  unfold LG.sentimentNode
  rw [h]
  refine ⟨LG.sentimentOf r, rfl, ?_⟩
  unfold LG.sentimentOf
  cases r with
  | ok t =>
    dsimp only
    by_cases hv : LG.validSentiments.contains (jsTrim (jsToLower t))
    · rw [if_pos hv]
      simpa using hv
    · rw [if_neg hv]
      decide
  | error e =>
    dsimp only
    decide

/-- Witness for C5 at an unrecognised classifier reply. -/
theorem c5_sentiment_coerced_witness :
    ∃ v, (LG.sentimentNode stTerrible (.ok "WEIRD output")).sentiment = some v ∧
      v ∈ LG.validSentiments :=
  c5_sentiment_coerced stTerrible (.ok "WEIRD output")
    ⟨"user", "I feel terrible today"⟩ (by decide)

/-- Counterexample for C5 as stated: the `calculator.js` sentiment node
stores the raw (lowercased, trimmed) classifier output — here `angry`,
which is none of the three admissible values. -/
theorem c5_calc_sentiment_raw :
    Calc.sentimentNode stTerrible (.ok "Angry") =
      .ok { stTerrible with sentiment := some "angry" } ∧
    "angry" ∉ LG.validSentiments := by
  decide

/-- C6 (amended): when the summarization call succeeds, the summarize
node appends exactly one entry to `summaries` when the accumulated
message count exceeds the threshold (10 in `langGraph.js`, 5 in
`calculator.js`) and returns `summaries` unchanged otherwise; `messages`
is never touched; and when the call fails the `langGraph.js` node leaves
the whole state unchanged even above the threshold. -/
theorem c6_summarize_exactly_one (s : ChatState) (t : String) :
    ((LG.summarizeNode s (.ok t)).summaries =
      if 10 < s.messages.length then s.summaries ++ [t] else s.summaries) ∧
    (∀ r, (LG.summarizeNode s r).messages = s.messages) ∧
    LG.summarizeNode s (.error ()) = s ∧
    (Calc.summarizeNode s (.ok t) =
      .ok (if 5 < s.messages.length
        then { s with summaries := s.summaries ++ [t] } else s)) := by
  refine ⟨?_, ?_, ?_, ?_⟩
  · unfold LG.summarizeNode
    by_cases hl : 10 < s.messages.length <;> simp [hl]
  · intro r
    exact (lg_summarizeNode_fields s r).1
  · unfold LG.summarizeNode
    by_cases hl : 10 < s.messages.length <;> simp [hl]
  · unfold Calc.summarizeNode
    by_cases hl : 5 < s.messages.length <;> simp [hl]

/-- Counterexample for C6 as stated: with 11 accumulated messages (above
the threshold) but a failing summarization call, the `langGraph.js`
summarize node appends nothing. -/
theorem c6_summarize_error_no_append :
    10 < st11.messages.length ∧ LG.summarizeNode st11 (.error ()) = st11 := by
  decide

/-- C7 (amended): for a chat-path run starting with no calming value, the
calming field is present in the final state iff the sentiment produced in
the run is `negative` and the calming call succeeded. -/
theorem c7_calming_iff_negative (s : ChatState) (o : Oracle) (m : Message)
    (h : lastUserMessage s = some m)
    (ha : isArithmetic m.content = false)
    (hcN : s.calming = none) :
    ((LG.run s o).state.calming.isSome = true ↔
      (LG.sentimentOf o.senti = "negative" ∧ ∃ t, o.calm = .ok t)) := by
  obtain ⟨_, _, g3, _, _⟩ := lg_run_chat s o m h ha
  rw [g3]
  by_cases hneg : LG.sentimentOf o.senti = "negative"
  · rw [if_pos hneg]
    cases hcm : o.calm with
    | ok t => simp [hneg]
    | error e => simp [hcN, hneg]
  · rw [if_neg hneg]
    simp [hcN, hneg]

/-- Witness for C7: negative sentiment with a successful calming call —
the calming field is present. -/
theorem c7_calming_iff_negative_witness :
    ((LG.run stTerrible oBase).state.calming.isSome = true ↔
      (LG.sentimentOf oBase.senti = "negative" ∧ ∃ t, oBase.calm = .ok t)) :=
  c7_calming_iff_negative stTerrible oBase ⟨"user", "I feel terrible today"⟩
    (by decide) (by decide) (by decide)

/-- Counterexample for C7 as stated: the sentiment produced is `negative`
yet the final state has no calming text, because the calming call threw
(the node's early return drops the update). -/
theorem c7_calming_missing_on_failure :
    (LG.run stTerrible oCalmFail).state.sentiment = some "negative" ∧
    (LG.run stTerrible oCalmFail).state.calming = none := by
  decide

/-- C8: `messages` is append-only.  The `langGraph.js` chatbot node
appends exactly one assistant message; summarize, sentiment, calming and
router leave `messages` untouched; both calculator nodes at most append
to the end (stated as a list-prefix fact); a whole `langGraph.js` run
only extends `messages`; and across consecutive runs sharing a
carried-over state (each new user input appended before the run) the
length of `messages` is monotonically non-decreasing. -/
theorem c8_messages_append_only (s : ChatState) (o : Oracle) (r : MRes)
    (i : String) :
    (LG.callModel s r).messages = s.messages ++ [⟨"assistant", chatText r⟩] ∧
    (LG.summarizeNode s r).messages = s.messages ∧
    (LG.sentimentNode s r).messages = s.messages ∧
    (LG.calmingNode s r).messages = s.messages ∧
    (LG.routerNode s).messages = s.messages ∧
    s.messages <+: (LG.calculatorNode s).1.messages ∧
    s.messages <+: (Calc.calculatorNode s).1.messages ∧
    s.messages <+: (LG.run s o).state.messages ∧
    s.messages.length ≤ (LG.run (pushUser s i) o).state.messages.length := by
  refine ⟨by rw [lg_callModel_eq], (lg_summarizeNode_fields s r).1,
    (lg_sentimentNode_fields s r).1, (lg_calmingNode_fields s r).1,
    lg_routerNode_messages s, lg_calculatorNode_extends s,
    calc_calculatorNode_extends s, lg_run_extends s o, ?_⟩
  have hp := lg_run_extends (pushUser s i) o
  have h1 : s.messages.length ≤ (pushUser s i).messages.length := by
    unfold pushUser
    simp
  exact le_trans h1 hp.length_le
